import Mathlib

/-!
Shallow embedding of the game-rules engine of `src/app.py`
(class `OriginalGameLogic` and the predict-button handler).

Modelling conventions:
* Python `int` values (digits, signals, guesses) are Lean `Int`.
* Python `float` token amounts (balance, jackpot, bets) are modelled as
  exact rationals `ℚ`; the properties verified here are structural
  (which branch runs, which terms are added) and do not depend on
  binary rounding.
* A user guess is either an `int` or a `str` (the two kinds of values
  the widgets produce), modelled by the sum type `Guess`.
* `random.randint` draws and the `random.random() < 0.05` jackpot roll
  are inputs to the step function (an injected randomness source).
-/

/-- A user guess as passed to `check_win`: a Python `int` or `str`. -/
inductive Guess where
  | int (n : Int)
  | str (s : String)
deriving DecidableEq, Repr

/-- Python `str(user_choice)` on a guess value. -/
def pyStr : Guess → String
  | Guess.int n => toString n
  | Guess.str s => s

/-- Numeric value of a decimal digit character, `none` otherwise
(models Python `int(d)` on a single character). -/
def digitVal (c : Char) : Option Nat :=
  if '0' ≤ c ∧ c ≤ '9' then some (c.toNat - '0'.toNat) else none

/-- Parse a nonempty all-digit character list as a natural number;
`none` on the empty list or any non-digit character. -/
def parseNatDigits (cs : List Char) : Option Nat :=
  match cs with
  | [] => none
  | _ =>
    cs.foldl
      (fun acc c =>
        match acc, digitVal c with
        | some a, some d => some (a * 10 + d)
        | _, _ => none)
      (some 0)

/-- Python `int(s)` on a string: optional sign followed by digits;
`none` models the `ValueError` raised on malformed input.
(Pythonic whitespace stripping and underscore separators are omitted;
no claim depends on them.) -/
def pyInt (s : String) : Option Int :=
  match s.data with
  | '-' :: rest => (parseNatDigits rest).map (fun n => -(n : Int))
  | '+' :: rest => (parseNatDigits rest).map (fun n => (n : Int))
  | cs => (parseNatDigits cs).map (fun n => (n : Int))

/-- Python `int(user_choice)`: direct on an `int`, parsed on a `str`. -/
def pyIntOf : Guess → Option Int
  | Guess.int n => some n
  | Guess.str s => pyInt s

/-- Python `str.zfill(width)` on a character list: left-pad with zeros
to `width`, keeping a leading sign character in front of the padding. -/
def zfillChars (cs : List Char) (width : Nat) : List Char :=
  if width ≤ cs.length then cs
  else
    match cs with
    | c :: rest =>
      if c = '+' ∨ c = '-' then
        c :: (List.replicate (width - cs.length) '0' ++ rest)
      else
        List.replicate (width - cs.length) '0' ++ (c :: rest)
    | [] => List.replicate width '0'

/-- Python `s.zfill(width)`. -/
def pyZfill (s : String) (width : Nat) : String :=
  String.mk (zfillChars s.data width)

/-- Python `[int(d) for d in s]`: every character must be a digit,
otherwise the comprehension raises (`none`). -/
def parseDigitList (s : String) : Option (List Int) :=
  s.data.mapM (fun c => (digitVal c).map (fun n => (n : Int)))

/-- Python `sorted` on a list of ints (ascending). -/
def pySorted (l : List Int) : List Int :=
  l.insertionSort (fun a b => a ≤ b)

/-- Python `len(Counter(l))`: the number of distinct values in `l`. -/
def distinctCount (l : List Int) : Nat := l.dedup.length

/-- Python `2 in Counter(l).values()`: some value occurs exactly twice. -/
def hasPairValue (l : List Int) : Bool :=
  l.any (fun x => l.count x == 2)

/-- The per-kind pattern-shape test of `check_win` (the three parallel
`is_user_valid` / `is_draw1_pattern_match` / `is_draw2_pattern_match`
assignments of lines 106-111 of `src/app.py`, factored over the list
they examine): Triple Crown needs 3 distinct values, Double Fortune
2 distinct values with one occurring twice, Royal Flush 1 distinct
value. -/
def patternValid (internal_game_type : String) (l : List Int) : Bool :=
  if internal_game_type = "Triple Crown" then distinctCount l == 3
  else if internal_game_type = "Double Fortune" then
    distinctCount l == 2 && hasPairValue l
  else if internal_game_type = "Royal Flush" then distinctCount l == 1
  else false

/-- `OriginalGameLogic.check_win` of `src/app.py` lines 92-114.
The Python `try`/`except` that turns any exception into `False` is
modelled by the `none` branches of the fallible parses. -/
def check_win (internal_game_type : String) (user_choice : Guess)
    (draw1_digits : List Int) (sum1 : Int)
    (draw2_digits : List Int) (sum2 : Int) : Bool :=
  if internal_game_type = "Royal Single" then
    match pyIntOf user_choice with
    | some user_num => decide (user_num = sum1) || decide (user_num = sum2)
    | none => false
  else if internal_game_type = "Golden Jodi" then
    decide (pyZfill (pyStr user_choice) 2 = toString sum1 ++ toString sum2)
  else if internal_game_type = "Triple Crown" ∨
      internal_game_type = "Double Fortune" ∨
      internal_game_type = "Royal Flush" then
    match parseDigitList (pyZfill (pyStr user_choice) 3) with
    | some user_digits =>
      let user_digits_list_sorted := pySorted user_digits
      let match1 := decide (user_digits_list_sorted = pySorted draw1_digits)
      let match2 := decide (user_digits_list_sorted = pySorted draw2_digits)
      let is_user_valid := patternValid internal_game_type user_digits_list_sorted
      let is_draw1_pattern_match := patternValid internal_game_type draw1_digits
      let is_draw2_pattern_match := patternValid internal_game_type draw2_digits
      is_user_valid &&
        ((match1 && is_draw1_pattern_match) || (match2 && is_draw2_pattern_match))
    | none => false
  else false

example : check_win "Royal Single" (Guess.int 5) [2, 5, 8] 5 [1, 1, 1] 3 = true := by decide
example : check_win "Double Fortune" (Guess.str "112") [2, 1, 1] 4 [0, 0, 0] 0 = true := by decide
example : check_win "Royal Flush" (Guess.str "112") [1, 1, 2] 4 [1, 1, 2] 4 = false := by decide
example : check_win "Golden Jodi" (Guess.str "07") [0, 0, 0] 0 [2, 2, 3] 7 = true := by decide
example : check_win "Golden Jodi" (Guess.str "7") [0, 0, 0] 0 [2, 2, 3] 7 = true := by decide
example : check_win "Triple Crown" (Guess.int 12) [0, 1, 2] 3 [5, 5, 5] 5 = true := by decide
example : check_win "Bogus Kind" (Guess.int 5) [2, 5, 8] 5 [1, 1, 1] 3 = false := by decide
example : check_win "Royal Single" (Guess.str "abc") [2, 5, 8] 5 [1, 1, 1] 3 = false := by decide

/-- `OriginalGameLogic.PAYOUTS` (lines 19-25 of `src/app.py`). -/
def PAYOUTS : List (String × ℚ) :=
  [("Royal Single", 10), ("Golden Jodi", 90), ("Triple Crown", 150),
   ("Double Fortune", 300), ("Royal Flush", 500)]

/-- `OriginalGameLogic.get_payout_multiplier`: `PAYOUTS.get(t, 0.0)`. -/
def get_payout_multiplier (internal_game_type : String) : ℚ :=
  match PAYOUTS.lookup internal_game_type with
  | some v => v
  | none => 0

/-- `OriginalGameLogic.STREAK_BONUSES` as Python iterates it:
`sorted({3: 0.10, 5: 0.20, 10: 0.50}.items(), reverse=True)`. -/
def STREAK_BONUSES_DESC : List (Nat × ℚ) :=
  [(10, 1/2), (5, 1/5), (3, 1/10)]

/-- The loop body of `get_streak_bonus_multiplier`: take the rate of
the first (highest) threshold the streak count meets, else 0.0. -/
def streakBonusLoop : List (Nat × ℚ) → Nat → ℚ
  | [], _ => 0
  | (streak, rate) :: rest, streak_count =>
    if streak ≤ streak_count then rate else streakBonusLoop rest streak_count

/-- `OriginalGameLogic.get_streak_bonus_multiplier` (lines 116-122). -/
def get_streak_bonus_multiplier (streak_count : Nat) : ℚ :=
  streakBonusLoop STREAK_BONUSES_DESC streak_count

/-- `OriginalGameLogic.JACKPOT_CONTRIBUTION_RATE` (1% of each bet). -/
def JACKPOT_CONTRIBUTION_RATE : ℚ := 1/100

/-- `OriginalGameLogic.calculate_jackpot` (lines 124-127). -/
def calculate_jackpot (current_jackpot : ℚ) (bet_amount : ℚ) : ℚ :=
  current_jackpot + bet_amount * JACKPOT_CONTRIBUTION_RATE

/-- One row appended to `st.session_state.v4_history` (lines 462-469).
The wall-clock `timestamp` field is not modelled. -/
structure HistoryEntry where
  game_type : String
  user_choice : Guess
  draw1_result : String
  draw2_result : String
  jodi : String
  bet_amount : ℚ
  won : Bool
  payout : ℚ
  balance_after : ℚ
deriving DecidableEq, Repr

/-- The `v4_`-prefixed session state (lines 228-232 of `src/app.py`). -/
structure Session where
  balance : ℚ
  jackpot : ℚ
  streak : Nat
  last_signals : List String
  history : List HistoryEntry
deriving DecidableEq, Repr

/-- The freshly initialised session state (also what the reset button
produces by deleting every `v4_` key, lines 228-232 and 486-491). -/
def resetSession : Session :=
  ⟨10000, 5000, 0, [], []⟩

/-- `deque(maxlen=10).append`: append on the right, evict on the left
beyond 10 elements. -/
def appendSignal (sigs : List String) (jodi : String) : List String :=
  let l := sigs ++ [jodi]
  if 10 < l.length then l.drop (l.length - 10) else l

/-- The history strings `f"{digits joined}*{sum}"` (lines 466-467). -/
def drawResultString (digits : List Int) (s : Int) : String :=
  String.join (digits.map toString) ++ "*" ++ toString s

/-- Everything the predict handler produces in one round: the updated
session plus the handler locals `valid_input`, `won`, `winnings`,
`jackpot_win`, `jackpot_win_amount`. -/
structure RoundOutcome where
  session : Session
  valid : Bool
  won : Bool
  winnings : ℚ
  jackpot_win : Bool
  jackpot_win_amount : ℚ
deriving DecidableEq, Repr

/-- The predict-button handler of `src/app.py` lines 400-469.
Randomness is injected: `draw1_digits`/`draw2_digits` are the six
`random.randint(0, 9)` results of `generate_draw` (which computes
`sum1`/`sum2` as digit sums mod 10), and `jackpot_roll` is the value
of `random.random() < JACKPOT_WIN_CHANCE_ON_FLUSH`. On any validation
failure the session is returned untouched with `valid = false`. -/
def predictHandler (internal_game_type : String) (user_choice_input : Option Guess)
    (bet_amount : ℚ) (draw1_digits draw2_digits : List Int) (jackpot_roll : Bool)
    (s : Session) : RoundOutcome :=
  match user_choice_input with
  | none => ⟨s, false, false, 0, false, 0⟩
  | some user_choice =>
    if ¬(10 ≤ bet_amount ∧ bet_amount ≤ 5000) then ⟨s, false, false, 0, false, 0⟩
    else if s.balance < bet_amount then ⟨s, false, false, 0, false, 0⟩
    else
      let balance1 := s.balance - bet_amount
      let jackpot1 := calculate_jackpot s.jackpot bet_amount
      let sum1 := draw1_digits.sum % 10
      let sum2 := draw2_digits.sum % 10
      let jodi_result := toString sum1 ++ toString sum2
      let signals1 := appendSignal s.last_signals jodi_result
      let fixed_payout_multiplier := get_payout_multiplier internal_game_type
      let won := check_win internal_game_type user_choice
        draw1_digits sum1 draw2_digits sum2
      let mkEntry := fun (w : Bool) (payout balance_after : ℚ) =>
        (⟨internal_game_type, user_choice,
          drawResultString draw1_digits sum1, drawResultString draw2_digits sum2,
          jodi_result, bet_amount, w, payout, balance_after⟩ : HistoryEntry)
      if won then
        let winnings := bet_amount * fixed_payout_multiplier
        let balance2 := balance1 + winnings
        let streak1 := s.streak + 1
        if internal_game_type = "Royal Flush" ∧ jackpot_roll = true then
          let jackpot_win_amount := jackpot1
          let balance3 := balance2 + jackpot_win_amount
          ⟨⟨balance3, 5000, streak1, signals1,
            s.history ++ [mkEntry true (winnings + jackpot_win_amount) balance3]⟩,
           true, true, winnings, true, jackpot_win_amount⟩
        else
          let streak_bonus_mult := get_streak_bonus_multiplier streak1
          let balance3 :=
            if 0 < streak_bonus_mult then balance2 + bet_amount * streak_bonus_mult
            else balance2
          ⟨⟨balance3, jackpot1, streak1, signals1,
            s.history ++ [mkEntry true winnings balance3]⟩,
           true, true, winnings, false, 0⟩
      else
        ⟨⟨balance1, jackpot1, 0, signals1,
          s.history ++ [mkEntry false 0 balance1]⟩,
         true, false, 0, false, 0⟩

/-- One user interaction as fed to the handler: the prediction kind,
the guess (with `none` for a rejected/empty widget), the bet and the
injected randomness. -/
structure BetInput where
  kind : String
  choice : Option Guess
  bet : ℚ
  d1 : List Int
  d2 : List Int
  roll : Bool
deriving Repr

/-- The session after one handler invocation. -/
def runBet (s : Session) (i : BetInput) : Session :=
  (predictHandler i.kind i.choice i.bet i.d1 i.d2 i.roll s).session

/-- The session after a sequence of handler invocations. -/
def runBets (s : Session) (l : List BetInput) : Session :=
  l.foldl runBet s

example :
    (predictHandler "Royal Single" (some (Guess.int 5)) 100 [2, 5, 8] [1, 1, 1]
      false resetSession).session.balance = 10900 := by
  norm_num [predictHandler, resetSession, calculate_jackpot,
    get_payout_multiplier, PAYOUTS, get_streak_bonus_multiplier,
    streakBonusLoop, STREAK_BONUSES_DESC,
    show check_win "Royal Single" (Guess.int 5) [2, 5, 8] 5 [1, 1, 1] 3 = true
      from by decide]
example :
    (predictHandler "Royal Single" (some (Guess.int 5)) 6000 [2, 5, 8] [1, 1, 1]
      false resetSession).session = resetSession := by
  norm_num [predictHandler]

/-! ### Spec-side definitions

These definitions follow the wording of the specification (not the
code); the claim theorems relate them to the embedded code. -/

/-- The pattern shapes as the specification words them: Triple Crown
(UniquePattern) is 3 distinct digit values, Double Fortune
(RepeatingPattern) is 2 distinct values with one value appearing
exactly twice, Royal Flush (ConsensusPattern) is 1 distinct value. -/
def shapeMatches (kind : String) (l : List Int) : Prop :=
  if kind = "Triple Crown" then l.toFinset.card = 3
  else if kind = "Double Fortune" then
    l.toFinset.card = 2 ∧ ∃ x ∈ l, l.count x = 2
  else if kind = "Royal Flush" then l.toFinset.card = 1
  else False

instance (kind : String) (l : List Int) : Decidable (shapeMatches kind l) := by
  unfold shapeMatches; infer_instance

/-- The streak-bonus table as the specification words it: the rate of
the single highest threshold in 3 ↦ 10 percent, 5 ↦ 20 percent,
10 ↦ 50 percent met by the streak count, 0 when none is met. -/
def highestStreakBonusRate (streak_count : Nat) : ℚ :=
  if 10 ≤ streak_count then 1/2
  else if 5 ≤ streak_count then 1/5
  else if 3 ≤ streak_count then 1/10
  else 0

/-- Spec-side simplified pattern evaluator (claim C7): identical to
`check_win` except that the matched feed's own shape is not
re-checked, only the guess's shape and the sorted-sequence match. -/
def check_win_simplified (internal_game_type : String) (user_choice : Guess)
    (draw1_digits : List Int) (sum1 : Int)
    (draw2_digits : List Int) (sum2 : Int) : Bool :=
  if internal_game_type = "Royal Single" then
    match pyIntOf user_choice with
    | some user_num => decide (user_num = sum1) || decide (user_num = sum2)
    | none => false
  else if internal_game_type = "Golden Jodi" then
    decide (pyZfill (pyStr user_choice) 2 = toString sum1 ++ toString sum2)
  else if internal_game_type = "Triple Crown" ∨
      internal_game_type = "Double Fortune" ∨
      internal_game_type = "Royal Flush" then
    match parseDigitList (pyZfill (pyStr user_choice) 3) with
    | some user_digits =>
      let user_digits_list_sorted := pySorted user_digits
      let match1 := decide (user_digits_list_sorted = pySorted draw1_digits)
      let match2 := decide (user_digits_list_sorted = pySorted draw2_digits)
      let is_user_valid := patternValid internal_game_type user_digits_list_sorted
      is_user_valid && (match1 || match2)
    | none => false
  else false

/-! ### Helper lemmas -/

theorem pySorted_perm (l : List Int) : List.Perm (pySorted l) l :=
  List.perm_insertionSort _ l

theorem perm_of_pySorted_eq {a b : List Int} (h : pySorted a = pySorted b) :
    List.Perm a b := by
  have ha := (pySorted_perm a).symm
  have hb := pySorted_perm b
  rw [← h] at hb
  exact ha.trans hb

theorem distinctCount_eq_of_perm {a b : List Int} (h : List.Perm a b) :
    distinctCount a = distinctCount b :=
  (h.dedup).length_eq

theorem hasPairValue_eq_of_perm {a b : List Int} (h : List.Perm a b) :
    hasPairValue a = hasPairValue b := by
  unfold hasPairValue
  refine Bool.eq_iff_iff.mpr ?_
  simp only [List.any_eq_true, beq_iff_eq]
  constructor
  · rintro ⟨x, hx, hc⟩
    exact ⟨x, h.mem_iff.mp hx, by rw [← h.count_eq]; exact hc⟩
  · rintro ⟨x, hx, hc⟩
    exact ⟨x, h.mem_iff.mpr hx, by rw [h.count_eq]; exact hc⟩

theorem patternValid_eq_of_perm (kind : String) {a b : List Int}
    (h : List.Perm a b) : patternValid kind a = patternValid kind b := by
  unfold patternValid
  rw [distinctCount_eq_of_perm h, hasPairValue_eq_of_perm h]

theorem patternValid_iff_shapeMatches (kind : String) (l : List Int) :
    patternValid kind l = true ↔ shapeMatches kind l := by
  unfold patternValid shapeMatches distinctCount hasPairValue
  rw [List.card_toFinset]
  split_ifs <;>
    simp [List.any_eq_true]

theorem pyZfill_of_length_ge {s : String} {w : Nat} (h : w ≤ s.length) :
    pyZfill s w = s := by
  have h' : w ≤ s.data.length := h
  unfold pyZfill zfillChars
  rw [if_pos h']

theorem le_length_zfillChars (cs : List Char) (w : Nat) :
    w ≤ (zfillChars cs w).length := by
  rcases cs with _ | ⟨c, rest⟩ <;>
    simp only [zfillChars] <;>
    split_ifs <;>
    simp_all [List.length_append, List.length_replicate] <;>
    omega

theorem pyZfill_pyZfill (s : String) (w : Nat) :
    pyZfill (pyZfill s w) w = pyZfill s w := by
  apply pyZfill_of_length_ge
  show w ≤ (zfillChars s.data w).length
  exact le_length_zfillChars s.data w

theorem check_win_royal_single (g : Guess) (d1 : List Int) (s1 : Int)
    (d2 : List Int) (s2 : Int) :
    check_win "Royal Single" g d1 s1 d2 s2 =
      match pyIntOf g with
      | some user_num => decide (user_num = s1) || decide (user_num = s2)
      | none => false := by
  rfl

theorem check_win_golden_jodi (g : Guess) (d1 : List Int) (s1 : Int)
    (d2 : List Int) (s2 : Int) :
    check_win "Golden Jodi" g d1 s1 d2 s2 =
      decide (pyZfill (pyStr g) 2 = toString s1 ++ toString s2) := by
  rfl

theorem check_win_pattern_eq (kind : String)
    (hk : kind = "Triple Crown" ∨ kind = "Double Fortune" ∨ kind = "Royal Flush")
    (g : Guess) (d1 : List Int) (s1 : Int) (d2 : List Int) (s2 : Int) :
    check_win kind g d1 s1 d2 s2 =
      match parseDigitList (pyZfill (pyStr g) 3) with
      | some ud =>
        patternValid kind (pySorted ud) &&
          ((decide (pySorted ud = pySorted d1) && patternValid kind d1) ||
           (decide (pySorted ud = pySorted d2) && patternValid kind d2))
      | none => false := by
  rcases hk with rfl | rfl | rfl <;> rfl

theorem check_win_pattern_some (kind : String)
    (hk : kind = "Triple Crown" ∨ kind = "Double Fortune" ∨ kind = "Royal Flush")
    {g : Guess} {ud : List Int}
    (hp : parseDigitList (pyZfill (pyStr g) 3) = some ud)
    (d1 : List Int) (s1 : Int) (d2 : List Int) (s2 : Int) :
    check_win kind g d1 s1 d2 s2 =
      (patternValid kind (pySorted ud) &&
        ((decide (pySorted ud = pySorted d1) && patternValid kind d1) ||
         (decide (pySorted ud = pySorted d2) && patternValid kind d2))) := by
  rw [check_win_pattern_eq kind hk, hp]

theorem check_win_pattern_none (kind : String)
    (hk : kind = "Triple Crown" ∨ kind = "Double Fortune" ∨ kind = "Royal Flush")
    {g : Guess} (hp : parseDigitList (pyZfill (pyStr g) 3) = none)
    (d1 : List Int) (s1 : Int) (d2 : List Int) (s2 : Int) :
    check_win kind g d1 s1 d2 s2 = false := by
  rw [check_win_pattern_eq kind hk, hp]

theorem check_win_simplified_pattern_eq (kind : String)
    (hk : kind = "Triple Crown" ∨ kind = "Double Fortune" ∨ kind = "Royal Flush")
    (g : Guess) (d1 : List Int) (s1 : Int) (d2 : List Int) (s2 : Int) :
    check_win_simplified kind g d1 s1 d2 s2 =
      match parseDigitList (pyZfill (pyStr g) 3) with
      | some ud =>
        patternValid kind (pySorted ud) &&
          (decide (pySorted ud = pySorted d1) || decide (pySorted ud = pySorted d2))
      | none => false := by
  rcases hk with rfl | rfl | rfl <;> rfl

theorem and_or_absorb (a b c m1 m2 : Bool)
    (h1 : m1 = true → b = a) (h2 : m2 = true → c = a) :
    (a && ((m1 && b) || (m2 && c))) = (a && (m1 || m2)) := by
  cases m1
  · cases m2
    · simp
    · rw [h2 rfl]; cases a <;> simp
  · rw [h1 rfl]
    cases m2
    · cases a <;> simp
    · rw [h2 rfl]; cases a <;> simp

/-! ### Claim theorems about the win evaluator -/

/-- C1: for every pattern kind (Triple Crown / Double Fortune / Royal
Flush), every 3-digit guess and every pair of feeds, `check_win` is
true iff the guess's digit-multiset has the kind's required shape and
the sorted guess digits equal the sorted digits of a feed whose own
multiset also has that shape. -/
theorem c1_pattern_win_iff (kind : String)
    (hk : kind = "Triple Crown" ∨ kind = "Double Fortune" ∨ kind = "Royal Flush")
    (g : String) (gd : List Int) (hlen : g.length = 3)
    (hparse : parseDigitList g = some gd)
    (d1 d2 : List Int) (s1 s2 : Int) :
    check_win kind (Guess.str g) d1 s1 d2 s2 = true ↔
      shapeMatches kind gd ∧
        ((pySorted gd = pySorted d1 ∧ shapeMatches kind d1) ∨
         (pySorted gd = pySorted d2 ∧ shapeMatches kind d2)) := by
  have hz : pyZfill (pyStr (Guess.str g)) 3 = g := pyZfill_of_length_ge hlen.ge
  have hp : parseDigitList (pyZfill (pyStr (Guess.str g)) 3) = some gd := by
    rw [hz]; exact hparse
  rw [check_win_pattern_some kind hk hp]
  simp only [Bool.and_eq_true, Bool.or_eq_true, decide_eq_true_iff,
    patternValid_eq_of_perm kind (pySorted_perm gd),
    patternValid_iff_shapeMatches]

/-- C1 witness: the spec scenario, Double Fortune guess "112" against
feed1 = [2,1,1]. -/
theorem c1_witness :
    ("112" : String).length = 3 ∧ parseDigitList "112" = some [1, 1, 2] ∧
      (check_win "Double Fortune" (Guess.str "112") [2, 1, 1] 4 [0, 0, 0] 0 = true ↔
        shapeMatches "Double Fortune" [1, 1, 2] ∧
          ((pySorted [1, 1, 2] = pySorted [2, 1, 1] ∧
              shapeMatches "Double Fortune" [2, 1, 1]) ∨
           (pySorted [1, 1, 2] = pySorted [0, 0, 0] ∧
              shapeMatches "Double Fortune" [0, 0, 0]))) :=
  ⟨by decide, by decide,
   c1_pattern_win_iff "Double Fortune" (Or.inr (Or.inl rfl)) "112" [1, 1, 2]
     (by decide) (by decide) [2, 1, 1] [0, 0, 0] 4 0⟩

/-- C6: for a Combined Signal (Golden Jodi) guess, `check_win` is true
iff the zero-padded guess string equals the concatenation of the two
signals' decimal strings, not their arithmetic sum; in particular the
guess "07" wins exactly when signal1 = 0 and signal2 = 7. -/
theorem c6_golden_jodi_iff (g : String) (d1 d2 : List Int) (s1 s2 : Int)
    (hs1 : 0 ≤ s1) (hs1' : s1 ≤ 9) (hs2 : 0 ≤ s2) (hs2' : s2 ≤ 9) :
    (check_win "Golden Jodi" (Guess.str g) d1 s1 d2 s2 = true ↔
      pyZfill g 2 = toString s1 ++ toString s2) ∧
    (check_win "Golden Jodi" (Guess.str "07") d1 s1 d2 s2 = true ↔
      (s1 = 0 ∧ s2 = 7)) := by
  constructor
  · rw [check_win_golden_jodi]
    simp only [pyStr, decide_eq_true_iff]
  · rw [check_win_golden_jodi]
    simp only [pyStr, decide_eq_true_iff]
    rw [show pyZfill "07" 2 = "07" from by decide]
    interval_cases s1 <;> interval_cases s2 <;> decide

/-- C6 witness: guess "07" against signals 0 and 7 wins. -/
theorem c6_witness :
    check_win "Golden Jodi" (Guess.str "07") [0, 0, 0] 0 [2, 2, 3] 7 = true :=
  ((c6_golden_jodi_iff "07" [0, 0, 0] [2, 2, 3] 0 7 (by decide) (by decide)
      (by decide) (by decide)).2).mpr ⟨rfl, rfl⟩

/-- C7: for the three pattern kinds, the feed-shape double-check is
redundant: `check_win` agrees with the simplified variant that only
checks the guess's shape and the sorted-sequence match, because equal
sorted sequences are permutations and pattern shapes are
permutation-invariant. -/
theorem c7_feed_shape_redundant (kind : String)
    (hk : kind = "Triple Crown" ∨ kind = "Double Fortune" ∨ kind = "Royal Flush")
    (g : Guess) (d1 : List Int) (s1 : Int) (d2 : List Int) (s2 : Int) :
    check_win kind g d1 s1 d2 s2 = check_win_simplified kind g d1 s1 d2 s2 := by
  cases hp : parseDigitList (pyZfill (pyStr g) 3) with
  | none =>
    rw [check_win_pattern_none kind hk hp,
      check_win_simplified_pattern_eq kind hk, hp]
  | some ud =>
    rw [check_win_pattern_some kind hk hp,
      check_win_simplified_pattern_eq kind hk, hp]
    apply and_or_absorb
    · intro hm
      have h := of_decide_eq_true hm
      exact patternValid_eq_of_perm kind
        ((perm_of_pySorted_eq h).symm.trans (pySorted_perm ud).symm)
    · intro hm
      have h := of_decide_eq_true hm
      exact patternValid_eq_of_perm kind
        ((perm_of_pySorted_eq h).symm.trans (pySorted_perm ud).symm)

/-- C7 witness: a feed whose shape differs from a matching guess
cannot arise, so both evaluators agree, here on Triple Crown with
guess "123" and feed1 = [3,1,2]. -/
theorem c7_witness :
    check_win "Triple Crown" (Guess.str "123") [3, 1, 2] 6 [5, 5, 5] 5 =
      check_win_simplified "Triple Crown" (Guess.str "123") [3, 1, 2] 6 [5, 5, 5] 5 :=
  c7_feed_shape_redundant "Triple Crown" (Or.inl rfl) (Guess.str "123")
    [3, 1, 2] 6 [5, 5, 5] 5

/-- C8: `check_win` is total and defensive: an unrecognized kind
yields false, a Royal Single guess that does not parse as an integer
yields false, and a pattern-kind guess whose zero-padded string
contains a non-digit yields false — never a propagated exception. -/
theorem c8_defensive_false (kind : String) (g : Guess)
    (d1 : List Int) (s1 : Int) (d2 : List Int) (s2 : Int) :
    (kind ∉ ["Royal Single", "Golden Jodi", "Triple Crown",
        "Double Fortune", "Royal Flush"] →
      check_win kind g d1 s1 d2 s2 = false) ∧
    (kind = "Royal Single" → pyIntOf g = none →
      check_win kind g d1 s1 d2 s2 = false) ∧
    ((kind = "Triple Crown" ∨ kind = "Double Fortune" ∨ kind = "Royal Flush") →
      parseDigitList (pyZfill (pyStr g) 3) = none →
      check_win kind g d1 s1 d2 s2 = false) := by
  refine ⟨?_, ?_, ?_⟩
  · intro hmem
    simp only [List.mem_cons, List.not_mem_nil, or_false, not_or] at hmem
    obtain ⟨n1, n2, n3, n4, n5⟩ := hmem
    unfold check_win
    rw [if_neg n1, if_neg n2, if_neg (by tauto)]
  · rintro rfl hnone
    rw [check_win_royal_single, hnone]
  · intro hk hnone
    exact check_win_pattern_none kind hk hnone d1 s1 d2 s2

/-- C8 witness: an unknown kind, a non-numeric Royal Single guess and
a non-digit pattern guess all lose without raising. -/
theorem c8_witness :
    check_win "Jackpot Special" (Guess.int 3) [1, 2, 3] 6 [4, 5, 6] 5 = false ∧
    check_win "Royal Single" (Guess.str "five") [1, 2, 3] 6 [4, 5, 6] 5 = false ∧
    check_win "Royal Flush" (Guess.str "77a") [7, 7, 7] 1 [4, 5, 6] 5 = false :=
  ⟨(c8_defensive_false "Jackpot Special" (Guess.int 3) [1, 2, 3] 6 [4, 5, 6] 5).1
     (by decide),
   (c8_defensive_false "Royal Single" (Guess.str "five") [1, 2, 3] 6 [4, 5, 6] 5).2.1
     rfl (by decide),
   (c8_defensive_false "Royal Flush" (Guess.str "77a") [7, 7, 7] 1 [4, 5, 6] 5).2.2
     (Or.inr (Or.inr rfl)) (by decide)⟩

/-- C9: a Royal Single (SignalDigit) integer guess wins iff it equals
signal1 or signal2; the spec scenario guess 5 with signals 5 and 3
wins. -/
theorem c9_signal_digit_iff (n : Int) (d1 : List Int) (s1 : Int)
    (d2 : List Int) (s2 : Int) :
    (check_win "Royal Single" (Guess.int n) d1 s1 d2 s2 = true ↔
      (n = s1 ∨ n = s2)) ∧
    check_win "Royal Single" (Guess.int 5) [2, 5, 8] 5 [1, 1, 1] 3 = true := by
  constructor
  · rw [check_win_royal_single]
    show (decide (n = s1) || decide (n = s2)) = true ↔ _
    simp only [Bool.or_eq_true, decide_eq_true_iff]
  · decide

/-- C10: `check_win` left-pads short guesses with zeros rather than
rejecting them: a Golden Jodi guess is evaluated as its 2-zfill, a
pattern-kind guess as its 3-zfill; in particular "7" behaves as "07"
under Golden Jodi and the integer 12 behaves as "012" under a pattern
kind. -/
theorem c10_zfill_padding (g : String) (d1 : List Int) (s1 : Int)
    (d2 : List Int) (s2 : Int) :
    (check_win "Golden Jodi" (Guess.str g) d1 s1 d2 s2 =
       check_win "Golden Jodi" (Guess.str (pyZfill g 2)) d1 s1 d2 s2) ∧
    (check_win "Triple Crown" (Guess.str g) d1 s1 d2 s2 =
       check_win "Triple Crown" (Guess.str (pyZfill g 3)) d1 s1 d2 s2) ∧
    (check_win "Double Fortune" (Guess.str g) d1 s1 d2 s2 =
       check_win "Double Fortune" (Guess.str (pyZfill g 3)) d1 s1 d2 s2) ∧
    (check_win "Royal Flush" (Guess.str g) d1 s1 d2 s2 =
       check_win "Royal Flush" (Guess.str (pyZfill g 3)) d1 s1 d2 s2) ∧
    (check_win "Golden Jodi" (Guess.str "7") d1 s1 d2 s2 =
       check_win "Golden Jodi" (Guess.str "07") d1 s1 d2 s2) ∧
    (check_win "Triple Crown" (Guess.int 12) d1 s1 d2 s2 =
       check_win "Triple Crown" (Guess.str "012") d1 s1 d2 s2) := by
  have hpat : ∀ kind, (kind = "Triple Crown" ∨ kind = "Double Fortune" ∨
      kind = "Royal Flush") →
      check_win kind (Guess.str g) d1 s1 d2 s2 =
        check_win kind (Guess.str (pyZfill g 3)) d1 s1 d2 s2 := by
    intro kind hk
    rw [check_win_pattern_eq kind hk, check_win_pattern_eq kind hk]
    simp only [pyStr]
    rw [pyZfill_pyZfill]
  have hint : check_win "Triple Crown" (Guess.int 12) d1 s1 d2 s2 =
      check_win "Triple Crown" (Guess.str "012") d1 s1 d2 s2 := by
    rw [check_win_pattern_eq "Triple Crown" (Or.inl rfl),
      check_win_pattern_eq "Triple Crown" (Or.inl rfl)]
    simp only [pyStr]
    rw [show pyZfill (toString (12 : Int)) 3 = pyZfill "012" 3 from by decide]
  refine ⟨?_, hpat _ (Or.inl rfl), hpat _ (Or.inr (Or.inl rfl)),
    hpat _ (Or.inr (Or.inr rfl)), ?_, hint⟩
  · rw [check_win_golden_jodi, check_win_golden_jodi]
    simp only [pyStr, pyZfill_pyZfill]
  · rw [check_win_golden_jodi, check_win_golden_jodi]
    simp only [pyStr, show pyZfill "7" 2 = pyZfill "07" 2 from by decide]

/-! ### Helper lemmas about the predict handler -/

theorem predictHandler_invalid (kind : String) (choice : Option Guess) (bet : ℚ)
    (d1 d2 : List Int) (roll : Bool) (s : Session)
    (h : ¬(10 ≤ bet ∧ bet ≤ 5000) ∨ s.balance < bet) :
    predictHandler kind choice bet d1 d2 roll s = ⟨s, false, false, 0, false, 0⟩ := by
  cases choice with
  | none => rfl
  | some g =>
    simp only [predictHandler]
    by_cases hb : 10 ≤ bet ∧ bet ≤ 5000
    · rw [if_neg (not_not_intro hb)]
      rcases h with h | h
      · exact absurd hb h
      · rw [if_pos h]
    · rw [if_pos hb]

theorem streak_bonus_eq_highest (n : Nat) :
    get_streak_bonus_multiplier n = highestStreakBonusRate n := by
  rfl

theorem streak_bonus_nonneg (n : Nat) : 0 ≤ get_streak_bonus_multiplier n := by
  rw [streak_bonus_eq_highest]
  unfold highestStreakBonusRate
  split_ifs <;> norm_num

/-! ### Claim theorems about the predict handler -/

/-- C2: a bet outside the 10..5000 range or exceeding the balance
fails validation and leaves every session field unchanged; a freshly
reset session followed by any sequence of out-of-range bets is still
the freshly reset session. -/
theorem c2_invalid_bet_no_mutation :
    (∀ (i : BetInput) (s : Session),
        ¬(10 ≤ i.bet ∧ i.bet ≤ 5000) ∨ s.balance < i.bet →
        runBet s i = s ∧
          (predictHandler i.kind i.choice i.bet i.d1 i.d2 i.roll s).valid = false) ∧
    (∀ l : List BetInput,
        (∀ j ∈ l, ¬(10 ≤ j.bet ∧ j.bet ≤ 5000)) →
        runBets resetSession l = resetSession) := by
  have hstep : ∀ (i : BetInput) (s : Session),
      (¬(10 ≤ i.bet ∧ i.bet ≤ 5000) ∨ s.balance < i.bet) →
      predictHandler i.kind i.choice i.bet i.d1 i.d2 i.roll s =
        ⟨s, false, false, 0, false, 0⟩ :=
    fun i s h => predictHandler_invalid i.kind i.choice i.bet i.d1 i.d2 i.roll s h
  constructor
  · intro i s h
    refine ⟨?_, ?_⟩
    · show (predictHandler i.kind i.choice i.bet i.d1 i.d2 i.roll s).session = s
      rw [hstep i s h]
    · rw [hstep i s h]
  · intro l
    induction l with
    | nil => intro _; rfl
    | cons j rest ih =>
      intro hl
      show runBets (runBet resetSession j) rest = resetSession
      have hj : runBet resetSession j = resetSession := by
        show (predictHandler j.kind j.choice j.bet j.d1 j.d2 j.roll resetSession).session =
          resetSession
        rw [hstep j resetSession (Or.inl (hl j (List.mem_cons_self j rest)))]
      rw [hj]
      exact ih (fun x hx => hl x (List.mem_cons_of_mem j hx))

/-- C2 witness: an over-limit 6000-token bet and an under-limit
5-token bet both leave the reset session untouched. -/
theorem c2_witness :
    (¬((10 : ℚ) ≤ 6000 ∧ (6000 : ℚ) ≤ 5000) ∨ resetSession.balance < 6000) ∧
    runBet resetSession
      ⟨"Royal Single", some (Guess.int 5), 6000, [2, 5, 8], [1, 1, 1], false⟩ =
      resetSession ∧
    runBets resetSession
      [⟨"Royal Single", some (Guess.int 5), 6000, [2, 5, 8], [1, 1, 1], false⟩,
       ⟨"Golden Jodi", some (Guess.str "58"), 5, [0, 1, 2], [3, 4, 5], true⟩] =
      resetSession := by
  refine ⟨Or.inl (by norm_num), ?_, ?_⟩
  · exact (c2_invalid_bet_no_mutation.1
      ⟨"Royal Single", some (Guess.int 5), 6000, [2, 5, 8], [1, 1, 1], false⟩
      resetSession (Or.inl (by norm_num))).1
  · refine c2_invalid_bet_no_mutation.2 _ ?_
    intro j hj
    fin_cases hj <;> norm_num

/-- C3: on a win without a jackpot payout, the balance gains base
winnings plus a streak bonus of bet times the rate of the single
highest threshold met by the post-increment streak; a jackpot payout
in the same round suppresses the streak bonus entirely. -/
theorem c3_streak_bonus (kind : String) (choice : Guess) (bet : ℚ)
    (d1 d2 : List Int) (roll : Bool) (s : Session)
    (hbet : 10 ≤ bet ∧ bet ≤ 5000) (hbal : bet ≤ s.balance)
    (hwon : check_win kind choice d1 (d1.sum % 10) d2 (d2.sum % 10) = true) :
    (¬(kind = "Royal Flush" ∧ roll = true) →
      (predictHandler kind (some choice) bet d1 d2 roll s).session.balance =
          s.balance - bet + bet * get_payout_multiplier kind +
            bet * highestStreakBonusRate (s.streak + 1) ∧
        (predictHandler kind (some choice) bet d1 d2 roll s).session.streak =
          s.streak + 1 ∧
        (predictHandler kind (some choice) bet d1 d2 roll s).jackpot_win = false) ∧
    (kind = "Royal Flush" ∧ roll = true →
      (predictHandler kind (some choice) bet d1 d2 roll s).session.balance =
        s.balance - bet + bet * get_payout_multiplier kind +
          calculate_jackpot s.jackpot bet) := by
  have h1 : ¬¬(10 ≤ bet ∧ bet ≤ 5000) := not_not_intro hbet
  have h2 : ¬(s.balance < bet) := not_lt.mpr hbal
  constructor
  · intro hnj
    simp only [predictHandler, if_neg h1, if_neg h2, hwon, if_true, if_neg hnj,
      streak_bonus_eq_highest]
    by_cases h0 : 0 < highestStreakBonusRate (s.streak + 1)
    · rw [if_pos h0]
      exact ⟨by ring, by trivial, by trivial⟩
    · rw [if_neg h0]
      have hz : highestStreakBonusRate (s.streak + 1) = 0 :=
        le_antisymm (not_lt.mp h0)
          (by rw [← streak_bonus_eq_highest]; exact streak_bonus_nonneg _)
      rw [hz]
      refine ⟨by ring, by trivial, by trivial⟩
  · intro hj
    simp only [predictHandler, if_neg h1, if_neg h2, hwon, if_true, if_pos hj]

/-- C3 witness: the spec scenario, a 1000-token Royal Single win at
post-increment streak 5 pays a 200-token bonus rate of one fifth. -/
theorem c3_witness :
    (predictHandler "Royal Single" (some (Guess.int 5)) 1000 [2, 5, 8] [1, 1, 1]
        false ⟨10000, 5000, 4, [], []⟩).session.balance =
      10000 - 1000 + 1000 * get_payout_multiplier "Royal Single" +
        1000 * highestStreakBonusRate 5 ∧
    highestStreakBonusRate 5 = 1/5 :=
  ⟨((c3_streak_bonus "Royal Single" (Guess.int 5) 1000 [2, 5, 8] [1, 1, 1] false
      ⟨10000, 5000, 4, [], []⟩ ⟨by norm_num, by norm_num⟩
      (by show (1000 : ℚ) ≤ 10000; norm_num) (by decide)).1 (by decide)).1,
   by norm_num [highestStreakBonusRate]⟩

/-- C4: with a valid bet, the round's jackpot contribution is exactly
bet times 0.01, added once, so the jackpot never decreases unless the
jackpot is paid out, in which case it is exactly 5000 afterwards and
the paid amount includes this round's contribution. -/
theorem c4_jackpot_monotone (kind : String) (choice : Guess) (bet : ℚ)
    (d1 d2 : List Int) (roll : Bool) (s : Session)
    (hbet : 10 ≤ bet ∧ bet ≤ 5000) (hbal : bet ≤ s.balance) :
    ((predictHandler kind (some choice) bet d1 d2 roll s).jackpot_win = false →
      (predictHandler kind (some choice) bet d1 d2 roll s).session.jackpot =
          s.jackpot + bet * (1/100) ∧
        s.jackpot ≤ (predictHandler kind (some choice) bet d1 d2 roll s).session.jackpot) ∧
    ((predictHandler kind (some choice) bet d1 d2 roll s).jackpot_win = true →
      (predictHandler kind (some choice) bet d1 d2 roll s).session.jackpot = 5000 ∧
        (predictHandler kind (some choice) bet d1 d2 roll s).jackpot_win_amount =
          s.jackpot + bet * (1/100)) := by
  have h1 : ¬¬(10 ≤ bet ∧ bet ≤ 5000) := not_not_intro hbet
  have h2 : ¬(s.balance < bet) := not_lt.mpr hbal
  have hb0 : (0 : ℚ) ≤ bet := le_trans (by norm_num) hbet.1
  have hmono : s.jackpot ≤ s.jackpot + bet * (1/100) := by
    have := mul_nonneg hb0 (by norm_num : (0 : ℚ) ≤ 1/100)
    linarith
  simp only [predictHandler, if_neg h1, if_neg h2]
  cases hw : check_win kind choice d1 (d1.sum % 10) d2 (d2.sum % 10) with
  | false =>
    simp only [Bool.false_eq_true, if_false]
    refine ⟨fun _ => ⟨rfl, hmono⟩, fun h => absurd h (by simp)⟩
  | true =>
    simp only [if_true]
    by_cases hj : kind = "Royal Flush" ∧ roll = true
    · rw [if_pos hj]
      refine ⟨fun h => absurd h (by simp), fun _ => ⟨rfl, rfl⟩⟩
    · rw [if_neg hj]
      by_cases h0 : 0 < get_streak_bonus_multiplier (s.streak + 1)
      · rw [if_pos h0]
        refine ⟨fun _ => ⟨rfl, hmono⟩, fun h => absurd h (by simp)⟩
      · rw [if_neg h0]
        refine ⟨fun _ => ⟨rfl, hmono⟩, fun h => absurd h (by simp)⟩

/-- C4 witness: theorem instantiated on a losing 100-token round from
the reset session. -/
theorem c4_witness :
    ((predictHandler "Royal Single" (some (Guess.int 9)) 100 [2, 5, 8] [1, 1, 1]
        false resetSession).jackpot_win = false →
      (predictHandler "Royal Single" (some (Guess.int 9)) 100 [2, 5, 8] [1, 1, 1]
          false resetSession).session.jackpot = 5000 + 100 * (1/100) ∧
        (5000 : ℚ) ≤ (predictHandler "Royal Single" (some (Guess.int 9)) 100
          [2, 5, 8] [1, 1, 1] false resetSession).session.jackpot) ∧
    ((predictHandler "Royal Single" (some (Guess.int 9)) 100 [2, 5, 8] [1, 1, 1]
        false resetSession).jackpot_win = true →
      (predictHandler "Royal Single" (some (Guess.int 9)) 100 [2, 5, 8] [1, 1, 1]
          false resetSession).session.jackpot = 5000 ∧
        (predictHandler "Royal Single" (some (Guess.int 9)) 100 [2, 5, 8] [1, 1, 1]
            false resetSession).jackpot_win_amount = 5000 + 100 * (1/100)) :=
  c4_jackpot_monotone "Royal Single" (Guess.int 9) 100 [2, 5, 8] [1, 1, 1] false
    resetSession ⟨by norm_num, by norm_num⟩ (by show (100 : ℚ) ≤ 10000; norm_num)

/-- C5: the jackpot payout is reachable only on a Royal Flush
(ConsensusPattern) win with a positive 5-percent roll; on such a win
the entire current jackpot (including this round's contribution) is
credited on top of base winnings and the jackpot resets to 5000. -/
theorem c5_jackpot_payout :
    (∀ (kind : String) (choice : Option Guess) (bet : ℚ) (d1 d2 : List Int)
        (roll : Bool) (s : Session),
      (predictHandler kind choice bet d1 d2 roll s).jackpot_win = true →
        kind = "Royal Flush" ∧ roll = true ∧
          (predictHandler kind choice bet d1 d2 roll s).won = true) ∧
    (∀ (g : Guess) (bet : ℚ) (d1 d2 : List Int) (s : Session),
      10 ≤ bet → bet ≤ 5000 → bet ≤ s.balance →
      check_win "Royal Flush" g d1 (d1.sum % 10) d2 (d2.sum % 10) = true →
      (predictHandler "Royal Flush" (some g) bet d1 d2 true s).jackpot_win = true ∧
        (predictHandler "Royal Flush" (some g) bet d1 d2 true s).jackpot_win_amount =
          calculate_jackpot s.jackpot bet ∧
        (predictHandler "Royal Flush" (some g) bet d1 d2 true s).session.balance =
          s.balance - bet + bet * get_payout_multiplier "Royal Flush" +
            calculate_jackpot s.jackpot bet ∧
        (predictHandler "Royal Flush" (some g) bet d1 d2 true s).session.jackpot =
          5000) := by
  constructor
  · intro kind choice bet d1 d2 roll s h
    cases choice with
    | none => exact absurd h (by simp [predictHandler])
    | some g =>
      by_cases hb : 10 ≤ bet ∧ bet ≤ 5000
      · by_cases hc : s.balance < bet
        · exact absurd h (by simp [predictHandler_invalid kind (some g) bet d1 d2
            roll s (Or.inr hc)])
        · rw [show predictHandler kind (some g) bet d1 d2 roll s =
              predictHandler kind (some g) bet d1 d2 roll s from rfl] at h
          revert h
          simp only [predictHandler, if_neg (not_not_intro hb), if_neg hc]
          cases hw : check_win kind g d1 (d1.sum % 10) d2 (d2.sum % 10) with
          | false => simp
          | true =>
            simp only [if_true]
            by_cases hj : kind = "Royal Flush" ∧ roll = true
            · rw [if_pos hj]
              intro _
              exact ⟨hj.1, hj.2, rfl⟩
            · rw [if_neg hj]
              by_cases h0 : 0 < get_streak_bonus_multiplier (s.streak + 1)
              · rw [if_pos h0]; simp
              · rw [if_neg h0]; simp
      · exact absurd h (by simp [predictHandler_invalid kind (some g) bet d1 d2
          roll s (Or.inl hb)])
  · intro g bet d1 d2 s hb1 hb2 hbal hwon
    have h1 : ¬¬(10 ≤ bet ∧ bet ≤ 5000) := not_not_intro ⟨hb1, hb2⟩
    have h2 : ¬(s.balance < bet) := not_lt.mpr hbal
    simp only [predictHandler, if_neg h1, if_neg h2, hwon, if_true, and_self]

/-- C5 witness: a Royal Flush win on guess "777" with a positive roll
pays the whole jackpot and resets it to 5000. -/
theorem c5_witness :
    (predictHandler "Royal Flush" (some (Guess.str "777")) 100 [7, 7, 7] [4, 5, 6]
        true resetSession).jackpot_win = true ∧
      (predictHandler "Royal Flush" (some (Guess.str "777")) 100 [7, 7, 7] [4, 5, 6]
          true resetSession).jackpot_win_amount =
        calculate_jackpot 5000 100 ∧
      (predictHandler "Royal Flush" (some (Guess.str "777")) 100 [7, 7, 7] [4, 5, 6]
          true resetSession).session.balance =
        10000 - 100 + 100 * get_payout_multiplier "Royal Flush" +
          calculate_jackpot 5000 100 ∧
      (predictHandler "Royal Flush" (some (Guess.str "777")) 100 [7, 7, 7] [4, 5, 6]
          true resetSession).session.jackpot = 5000 :=
  c5_jackpot_payout.2 (Guess.str "777") 100 [7, 7, 7] [4, 5, 6] resetSession
    (by norm_num) (by norm_num) (by show (100 : ℚ) ≤ 10000; norm_num) (by decide)
